import Mathlib

/-!
Verification of the PSLab packet handler (`PSL/packet_handler.py`).

The development embeds the `Handler` class as a Lean state machine.  Bytes are
`Nat` values below 256, the serial interface is a record holding the unread
input stream (`rx`), the log of performed writes (`writes`), and the
connection settings.  Fallible operations (struct packing) return
`Except String`.

The command table `PSL/commands_proto.py` is not part of the sources at hand;
its integer codecs (`Byte`/`ShortInt`/`Integer`, i.e. `struct` formats
`B`/`H`/`I`) and the opaque command tokens are modelled from the spec:
unsigned little-endian fixed-width integers, and opaque byte blobs passed as
parameters.
-/

/-- Modelled from the spec: a value handed to `_send` is either a raw byte
sequence (Python `bytes`) or an integer (`commands_proto` tokens are byte
blobs). -/
inductive Value where
  | bytes (bs : List Nat)
  | int (v : Int)
deriving DecidableEq

/-- Modelled from the spec: little-endian byte serialisation of a natural
number into exactly `w` bytes, as done by `struct` formats `B`/`H`/`I`. -/
def natLE : Nat → Nat → List Nat
  | 0, _ => []
  | w + 1, v => v % 256 :: natLE w (v / 256)

/-- Modelled from the spec: little-endian unsigned decoding of a byte
sequence, as done by `struct.unpack` and `int.from_bytes(..., "little")`. -/
def leVal : List Nat → Nat
  | [] => 0
  | b :: rest => b + 256 * leVal rest

/-- Modelled from the spec: `struct.Struct.pack` for an unsigned `w`-byte
format raises `struct.error` when the value is negative or does not fit in
`w` bytes; otherwise it produces the `w` little-endian bytes. -/
def packStruct (v : Int) (w : Nat) : Except String (List Nat) :=
  if 0 ≤ v ∧ v < (2 : Int) ^ (8 * w) then .ok (natLE w v.toNat)
  else .error "struct.error: argument out of range"

/-- Embeds `Handler._get_integer_type`: valid sizes are 1, 2 and 4 (the
`Byte`, `ShortInt` and `Integer` structs, represented by their width);
any other size raises `ValueError`. -/
def get_integer_type (size : Nat) : Except String Nat :=
  if size = 1 then .ok 1
  else if size = 2 then .ok 2
  else if size = 4 then .ok 4
  else .error "size must be 1, 2, or 4."

/-- The width `_send` chooses for a bare integer:
`2 ** ((value > 0xFF) + (value > 0xFFFF))`. -/
def autoSize (v : Int) : Nat :=
  2 ^ ((if v > 0xFF then 1 else 0) + (if v > 0xFFFF then 1 else 0))

/-- The packet `_send` computes before writing or buffering: raw bytes are
used verbatim; an integer is packed with the explicit size, or with
`autoSize` when no size is given. -/
def sendPacket (value : Value) (size : Option Nat) : Except String (List Nat) :=
  match value with
  | .bytes bs => .ok bs
  | .int v =>
    let sz := match size with
      | none => autoSize v
      | some s => s
    match get_integer_type sz with
    | .error e => .error e
    | .ok w => packStruct v w

/-- The serial interface: connection settings, open flag, the unread bytes
available on the channel (`rx`), and the log of `write` calls performed. -/
structure Serial where
  port : Option String
  baudrate : Nat
  timeout : ℚ
  isOpen : Bool
  rx : List Nat
  writes : List (List Nat)
deriving DecidableEq

/-- Constructing `serial.Serial(port, baudrate, timeout, ...)`: the port is
opened automatically iff a port was given. -/
def serialMk (port : Option String) (baudrate : Nat) (timeout : ℚ) : Serial :=
  { port := port, baudrate := baudrate, timeout := timeout,
    isOpen := port.isSome, rx := [], writes := [] }

/-- `interface.write(bs)`: appends one entry to the write log. -/
def serialWrite (i : Serial) (bs : List Nat) : Serial :=
  { i with writes := i.writes ++ [bs] }

/-- `interface.read(n)`: returns up to `n` bytes (fewer when the stream runs
out before the timeout) and consumes them from the stream. -/
def serialRead (i : Serial) (n : Nat) : List Nat × Serial :=
  (i.rx.take n, { i with rx := i.rx.drop n })

/-- The mutable state of a `Handler` instance. -/
structure Handler where
  burst_buffer : List Nat
  load_burst : Bool
  input_queue_size : Nat
  version : String
  interface : Serial
deriving DecidableEq

/-- Embeds `Handler._send`: compute the packet, then append it to the burst
buffer when burst mode is on, else write it to the interface.  A packing
failure propagates before any write or buffering happens. -/
def Handler.send (h : Handler) (value : Value) (size : Option Nat) :
    Except String Handler :=
  match sendPacket value size with
  | .error e => .error e
  | .ok packet =>
    if h.load_burst then .ok { h with burst_buffer := h.burst_buffer ++ packet }
    else .ok { h with interface := serialWrite h.interface packet }

/-- Embeds `Handler.get_ack`: with burst mode off, read one byte and unpack
it (an empty read makes `CP.Byte.unpack` raise, which is caught and turned
into 3); with burst mode on, increment the pending counter and return 1
without any I/O. -/
def Handler.get_ack (h : Handler) : Nat × Handler :=
  if ¬ h.load_burst then
    let (response, i') := serialRead h.interface 1
    let h' := { h with interface := i' }
    match response with
    | [b] => (b, h')
    | _ => (3, h')
  else
    (1, { h with input_queue_size := h.input_queue_size + 1 })

/-- Embeds `Handler._receive`: read `size` bytes; when the full count
arrived, decode little-endian unsigned (via the integer structs for sizes
1, 2, 4, via `int.from_bytes` otherwise — the same function); when fewer
bytes arrived, log and return the sentinel -1.  No exception is raised. -/
def Handler.receive (h : Handler) (size : Nat) : Int × Handler :=
  let (received, i') := serialRead h.interface size
  let retval : Int :=
    if received.length = size then
      if size = 1 ∨ size = 2 ∨ size = 4 then (leVal received : Nat)
      else (leVal received : Nat)
    else -1
  (retval, { h with interface := i' })

/-- Embeds `Handler.send_burst`: one write of the whole buffer, clear the
buffer, leave burst mode, one read of `input_queue_size` bytes, reset the
counter, return the raw bytes read. -/
def Handler.send_burst (h : Handler) : List Nat × Handler :=
  let i1 := serialWrite h.interface h.burst_buffer
  let h1 := { h with burst_buffer := [], load_burst := false, interface := i1 }
  let (acks, i2) := serialRead i1 h.input_queue_size
  (acks, { h1 with input_queue_size := 0, interface := i2 })

/-- External assignment `handler.load_burst = b` (as in the documented burst
usage `I.load_burst = True`); it touches nothing else. -/
def Handler.setLoadBurst (h : Handler) (b : Bool) : Handler :=
  { h with load_burst := b }

/-- Propagation of a raised exception through sequential statements: the
continuation runs only when no exception was raised. -/
def ebind {α β : Type} (m : Except String α) (f : α → Except String β) :
    Except String β :=
  match m with
  | .error e => .error e
  | .ok a => f a

/-- The Python error raised when attribute lookup on a `Handler` instance
fails (the real message quotes the class and attribute names). -/
def attributeError : String :=
  "AttributeError: Handler object has no attribute send"

/-- Attribute lookup of `self.send`, the first statement executed by
`read_bulk_flash` and `write_bulk_flash`: the class defines the primitive
`_send` (embedded above as `Handler.send`) and the partials
`send_byte`/`send_int`, but no attribute named `send`, so the lookup raises
`AttributeError` — before any transport I/O. -/
def lookupSend :
    Except String (Handler → Value → Option Nat → Except String Handler) :=
  .error attributeError

/-- The flash read protocol the body of `read_bulk_flash` spells out, over
the send primitive `sendF` that `self.send` would resolve to (the command
tokens `CP.FLASH` and `CP.READ_BULK_FLASH` are opaque byte blobs passed as
`fT` and `rT`): send the two tokens, the transfer length
`bytes_to_read = numbytes + numbytes % 2` (rounded up to even) as a 2-byte
field and the page, read the rounded length, read the acknowledgment, and
return only the first `numbytes` bytes. -/
def Handler.read_bulk_flashWith
    (sendF : Handler → Value → Option Nat → Except String Handler)
    (fT rT : List Nat) (page numbytes : Nat) (h : Handler) :
    Except String (List Nat × Handler) :=
  ebind (sendF h (.bytes fT) none) fun h1 =>
  ebind (sendF h1 (.bytes rT) none) fun h2 =>
  ebind (sendF h2 (.int (numbytes + numbytes % 2)) (some 2)) fun h3 =>
  ebind (sendF h3 (.int page) none) fun h4 =>
  .ok ((serialRead h4.interface (numbytes + numbytes % 2)).1.take numbytes,
    (Handler.get_ack
      { h4 with interface := (serialRead h4.interface (numbytes + numbytes % 2)).2 }).2)

/-- Embeds `Handler.read_bulk_flash` as staged: its first statement
`self.send(CP.FLASH)` resolves the attribute `send`, which does not exist,
so every call raises `AttributeError` and the body above is never
reached. -/
def Handler.read_bulk_flash (fT rT : List Nat) (page numbytes : Nat)
    (h : Handler) : Except String (List Nat × Handler) :=
  ebind lookupSend fun sendF =>
  Handler.read_bulk_flashWith sendF fT rT page numbytes h

/-- The padding statement `data += b"\x00" * (len(data) % 2)` of
`write_bulk_flash`: `data` rebound to itself padded to even length with a
zero byte. -/
def padEven (data : List Nat) : List Nat :=
  data ++ List.replicate (data.length % 2) 0

/-- The write-and-verify protocol the body of `write_bulk_flash` spells out,
over the send primitive `sendF` that `self.send` would resolve to (tokens
`CP.FLASH`, `CP.WRITE_BULK_FLASH`, `CP.READ_BULK_FLASH` passed as `fT`,
`wT`, `rT`): pad the data to even length with a zero byte (`data` is
rebound to the padded buffer), send the tokens, the padded length as a
2-byte field and the page, write the padded data, read the acknowledgment,
then read back `read_bulk_flash(page, len(data))` — whose body runs with
the same resolved send — and fail iff the read-back differs from the
padded `data`. -/
def Handler.write_bulk_flashWith
    (sendF : Handler → Value → Option Nat → Except String Handler)
    (fT wT rT : List Nat) (page : Nat) (data : List Nat) (h : Handler) :
    Except String Handler :=
  ebind (sendF h (.bytes fT) none) fun h1 =>
  ebind (sendF h1 (.bytes wT) none) fun h2 =>
  ebind (sendF h2 (.int (padEven data).length) (some 2)) fun h3 =>
  ebind (sendF h3 (.int page) none) fun h4 =>
  ebind (Handler.read_bulk_flashWith sendF fT rT page (padEven data).length
      (Handler.get_ack
        { h4 with interface :=
            (serialWrite h4.interface (padEven data)) }).2) fun sh =>
  if sh.1 = padEven data then .ok sh.2
  else .error "Verification by readback failed"

/-- Embeds `Handler.write_bulk_flash` as staged: after padding `data`
locally it executes `self.send(CP.FLASH)`, whose attribute lookup fails, so
every call raises `AttributeError` before any transport I/O and the body
above is never reached. -/
def Handler.write_bulk_flash (fT wT rT : List Nat) (page : Nat)
    (data : List Nat) (h : Handler) : Except String Handler :=
  ebind lookupSend fun sendF =>
  Handler.write_bulk_flashWith sendF fT wT rT page data h

/-- Decides whether a version string contains one of the accepted device
markers, `any(expected in version for expected in ["PSLab", "CSpark"])`. -/
def occursIn (needle : List Char) : List Char → Bool
  | [] => needle.isEmpty
  | c :: rest => needle.isPrefixOf (c :: rest) || occursIn needle rest

/-- Marker test used by `connect`: the version string contains `"PSLab"` or
`"CSpark"`. -/
def markerOk (version : String) : Bool :=
  occursIn "PSLab".toList version.toList || occursIn "CSpark".toList version.toList

/-- Probe phase of `Handler.connect`.  The external world is abstracted by
`env` (the version string the device on a given port reports to
`get_version`) and `cands` (the ports enumerated by `list_ports.grep` for
the PSLab VID:PID, in order).  A fresh `serial.Serial` is created: when a
port was given it is open and queried directly; otherwise the candidates
are opened in order until one reports a recognized marker, and the version
stays empty when none does. -/
def connectProbe (env : String → String) (cands : List String)
    (port : Option String) (baudrate : Nat) (timeout : ℚ) : Serial × String :=
  let iface := serialMk port baudrate timeout
  if iface.isOpen then
    (iface, env (port.getD ""))
  else
    match cands.find? (fun c => markerOk (env c)) with
    | some c => ({ iface with port := some c, isOpen := true }, env c)
    | none => (iface, "")

/-- Embeds `Handler.connect`: probe, then on a recognized marker store the
version and succeed; otherwise close the interface, clear the version and
raise `SerialException("Device not found.")` (modelled by the `false` flag
on the returned state). -/
def Handler.connect (env : String → String) (cands : List String)
    (port : Option String) (baudrate : Nat) (timeout : ℚ) (h : Handler) :
    Handler × Bool :=
  let pv := connectProbe env cands port baudrate timeout
  if markerOk pv.2 then
    ({ h with interface := pv.1, version := pv.2 }, true)
  else
    ({ h with interface := { pv.1 with isOpen := false }, version := "" }, false)

/-- Embeds `Handler.disconnect`: close the interface (and nothing else). -/
def Handler.disconnect (h : Handler) : Handler :=
  { h with interface := { h.interface with isOpen := false } }

/-- Embeds `Handler.reconnect`: disconnect, compute the previous settings
for every parameter left unspecified, create a `serial.Serial` from them,
then call `self.connect()` — with no arguments, i.e. with `port=None`,
`baudrate=1000000`, `timeout=1.0`. -/
def Handler.reconnect (env : String → String) (cands : List String)
    (port : Option String) (baudrate : Option Nat) (timeout : Option ℚ)
    (h : Handler) : Handler × Bool :=
  let h1 := h.disconnect
  let baudrate' := baudrate.getD h1.interface.baudrate
  let port' := match port with
    | none => h1.interface.port
    | some p => some p
  let timeout' := timeout.getD h1.interface.timeout
  let h2 := { h1 with interface := serialMk port' baudrate' timeout' }
  Handler.connect env cands none 1000000 1 h2

/-- An operation of a burst sequence: a `_send` or a `get_ack`. -/
inductive BOp where
  | sendOp (v : Value) (sz : Option Nat)
  | ackOp
deriving DecidableEq

/-- Runs a sequence of `_send` / `get_ack` operations, collecting the values
the `get_ack` calls return; a `_send` failure aborts the run. -/
def runOps : List BOp → Handler → Except String (Handler × List Nat)
  | [], h => .ok (h, [])
  | .sendOp v sz :: rest, h =>
    match h.send v sz with
    | .error e => .error e
    | .ok h' => runOps rest h'
  | .ackOp :: rest, h =>
    let (r, h') := Handler.get_ack h
    match runOps rest h' with
    | .error e => .error e
    | .ok (h'', rs) => .ok (h'', r :: rs)

/-- The concatenation of the packets of all `_send` operations of a burst
sequence (what the burst buffer accumulates). -/
def payloadOf : List BOp → Except String (List Nat)
  | [] => .ok []
  | .sendOp v sz :: rest =>
    match sendPacket v sz with
    | .error e => .error e
    | .ok pk =>
      match payloadOf rest with
      | .error e => .error e
      | .ok p => .ok (pk ++ p)
  | .ackOp :: rest => payloadOf rest

/-- The number of `get_ack` operations of a burst sequence. -/
def countAcks : List BOp → Nat
  | [] => 0
  | .sendOp _ _ :: rest => countAcks rest
  | .ackOp :: rest => countAcks rest + 1

/-- Recognizer for a successful `Except` result. -/
def exceptOk : Except String Handler → Bool
  | .ok _ => true
  | .error _ => false

def ifaceWith (rx : List Nat) : Serial :=
  { port := none, baudrate := 1000000, timeout := 1, isOpen := false,
    rx := rx, writes := [] }

def handlerWith (rx : List Nat) : Handler :=
  { burst_buffer := [], load_burst := false, input_queue_size := 0,
    version := "", interface := ifaceWith rx }

def env0 : String → String := fun p => if p = "COM9" then "PSLab mock" else ""

def hPrev : Handler :=
  { burst_buffer := [], load_burst := false, input_queue_size := 0,
    version := "PSLab v1", interface :=
      { port := some "COM1", baudrate := 115200, timeout := 2, isOpen := true,
        rx := [], writes := [] } }

def h2c : Handler :=
  { burst_buffer := [5], load_burst := true, input_queue_size := 0,
    version := "", interface := ifaceWith [] }

def opsB : List BOp :=
  [.sendOp (.int 5) none, .ackOp, .sendOp (.int 300) none, .ackOp,
    .sendOp (.bytes [9]) none, .ackOp]

def hB : Handler :=
  { burst_buffer := [], load_burst := true, input_queue_size := 0,
    version := "", interface := ifaceWith [1, 1, 2] }

def hBfin : Handler :=
  { burst_buffer := [5, 44, 1, 9], load_burst := true, input_queue_size := 3,
    version := "", interface := ifaceWith [1, 1, 2] }

theorem natLE_length (w : Nat) : ∀ v, (natLE w v).length = w := by
  induction w with
  | zero => intro v; rfl
  | succ w ih => intro v; simp [natLE, ih]

theorem sendPacket_auto (v : Int) (h0 : 0 ≤ v) (h32 : v < 2 ^ 32) :
    ∃ pk, sendPacket (.int v) none = .ok pk ∧ pk.length = autoSize v ∧
      v < 2 ^ (8 * autoSize v) := by
  by_cases h1 : v > 255 <;> by_cases h2 : v > 65535
  · refine ⟨natLE 4 v.toNat, ?_, ?_, ?_⟩ <;>
      simp [sendPacket, autoSize, get_integer_type, packStruct, h1, h2, natLE_length]
    · constructor
      · exact h0
      · norm_num at h32 ⊢; omega
    · norm_num at h32 ⊢; omega
  · refine ⟨natLE 2 v.toNat, ?_, ?_, ?_⟩ <;>
      simp [sendPacket, autoSize, get_integer_type, packStruct, h1, h2, natLE_length]
    · constructor
      · exact h0
      · norm_num at h32 ⊢; omega
    · norm_num at h32 ⊢; omega
  · omega
  · refine ⟨natLE 1 v.toNat, ?_, ?_, ?_⟩ <;>
      simp [sendPacket, autoSize, get_integer_type, packStruct, h1, h2, natLE_length]
    · constructor
      · exact h0
      · norm_num at h32 ⊢; omega
    · norm_num at h32 ⊢; omega

theorem autoSize_min (v : Int) (h0 : 0 ≤ v) :
    (autoSize v = 1 ∨ autoSize v = 2 ∨ autoSize v = 4) ∧
      ∀ s, (s = 1 ∨ s = 2 ∨ s = 4) → v < 2 ^ (8 * s) → autoSize v ≤ s := by
  by_cases h1 : v > 255 <;> by_cases h2 : v > 65535 <;>
    simp [autoSize, h1, h2] <;> omega

theorem send_ok_rec (bb : List Nat) (iqs : Nat) (ver : String) (ifc : Serial)
    (v : Value) (sz : Option Nat) (pk : List Nat)
    (hpk : sendPacket v sz = .ok pk) :
    Handler.send ⟨bb, false, iqs, ver, ifc⟩ v sz =
      .ok ⟨bb, false, iqs, ver, serialWrite ifc pk⟩ := by
  simp [Handler.send, hpk]

theorem sendPacket_short (n : Nat) (hn : n < 2 ^ 16) :
    sendPacket (.int (n : Int)) (some 2) = .ok (natLE 2 n) := by
  have hn' : n < 65536 := by norm_num at hn; exact hn
  simp [sendPacket, get_integer_type, packStruct]
  omega

theorem ebind_ok {α β : Type} (x : α) (f : α → Except String β) :
    ebind (.ok x) f = f x := rfl

theorem get_ack_snd_rec (bb : List Nat) (iqs : Nat) (ver : String) (ifc : Serial) :
    (Handler.get_ack ⟨bb, false, iqs, ver, ifc⟩).2 =
      ⟨bb, false, iqs, ver,
        ⟨ifc.port, ifc.baudrate, ifc.timeout, ifc.isOpen, ifc.rx.drop 1, ifc.writes⟩⟩ := by
  obtain ⟨pt, br, tm, op, rx, ws⟩ := ifc
  rcases rx with _ | ⟨b, rest⟩ <;> simp [Handler.get_ack, serialRead]

theorem read_bulk_flash_run (fT rT : List Nat) (page numbytes : Nat)
    (bb : List Nat) (iqs : Nat) (ver : String) (ifc : Serial)
    (hn : numbytes + numbytes % 2 < 2 ^ 16)
    (ppk : List Nat) (hppk : sendPacket (.int (page : Int)) none = .ok ppk) :
    Handler.read_bulk_flashWith Handler.send fT rT page numbytes
        ⟨bb, false, iqs, ver, ifc⟩ =
      .ok ((ifc.rx.take (numbytes + numbytes % 2)).take numbytes,
        ⟨bb, false, iqs, ver,
          ⟨ifc.port, ifc.baudrate, ifc.timeout, ifc.isOpen,
            (ifc.rx.drop (numbytes + numbytes % 2)).drop 1,
            ifc.writes ++ [fT, rT, natLE 2 (numbytes + numbytes % 2), ppk]⟩⟩) := by
  obtain ⟨pt, br, tm, op, rx, ws⟩ := ifc
  have hcast : ((numbytes : Int) + (numbytes : Int) % 2) =
      ((numbytes + numbytes % 2 : Nat) : Int) := by push_cast; ring
  rw [Handler.read_bulk_flashWith]
  rw [send_ok_rec bb iqs ver ⟨pt, br, tm, op, rx, ws⟩ (.bytes fT) none fT rfl, ebind_ok]
  rw [send_ok_rec bb iqs ver (serialWrite ⟨pt, br, tm, op, rx, ws⟩ fT) (.bytes rT) none rT rfl,
    ebind_ok]
  rw [hcast]
  rw [send_ok_rec bb iqs ver (serialWrite (serialWrite ⟨pt, br, tm, op, rx, ws⟩ fT) rT)
    (.int ((numbytes + numbytes % 2 : Nat) : Int)) (some 2)
    (natLE 2 (numbytes + numbytes % 2)) (sendPacket_short _ hn), ebind_ok]
  rw [send_ok_rec bb iqs ver
    (serialWrite (serialWrite (serialWrite ⟨pt, br, tm, op, rx, ws⟩ fT) rT)
      (natLE 2 (numbytes + numbytes % 2)))
    (.int ((page : Nat) : Int)) none ppk hppk, ebind_ok]
  simp [serialWrite, serialRead, get_ack_snd_rec]

/-- Claim C8 (confirmed): when `_send` is given a non-negative integer (below
2^32, so that some width can hold it) without an explicit size, the packet it
packs has `autoSize` bytes, `autoSize` lies in {1, 2, 4}, the value fits in
that width, no smaller width of {1, 2, 4} fits it, and with burst mode off
the packet is written to the transport; in particular 5 packs in 1 byte, 300
in 2 and 70000 in 4 (see the witness). -/
theorem send_auto_width_minimal (v : Int) (h0 : 0 ≤ v) (h32 : v < 2 ^ 32) :
    ∃ pk, sendPacket (.int v) none = .ok pk ∧ pk.length = autoSize v ∧
      (autoSize v = 1 ∨ autoSize v = 2 ∨ autoSize v = 4) ∧
      v < 2 ^ (8 * autoSize v) ∧
      (∀ s, (s = 1 ∨ s = 2 ∨ s = 4) → v < 2 ^ (8 * s) → autoSize v ≤ s) ∧
      ∀ h : Handler, h.load_burst = false →
        h.send (.int v) none = .ok { h with interface := serialWrite h.interface pk } := by
  obtain ⟨pk, hpk, hlen, hfit⟩ := sendPacket_auto v h0 h32
  obtain ⟨hcases, hmin⟩ := autoSize_min v h0
  refine ⟨pk, hpk, hlen, hcases, hfit, hmin, ?_⟩
  intro h hlb
  simp [Handler.send, hpk, hlb]

/-- Witness for C8 at the spec's example values 5, 300 and 70000. -/
theorem send_auto_width_minimal_witness :
    ((0 : Int) ≤ 300 ∧ (300 : Int) < 2 ^ 32 ∧ autoSize 300 = 2 ∧ autoSize 5 = 1 ∧
      autoSize 70000 = 4) ∧
      ∃ pk, sendPacket (.int 300) none = .ok pk ∧ pk.length = autoSize 300 := by
  refine ⟨⟨by norm_num, by norm_num, by decide, by decide, by decide⟩, ?_⟩
  obtain ⟨pk, hpk, hlen, -⟩ := send_auto_width_minimal 300 (by norm_num) (by norm_num)
  exact ⟨pk, hpk, hlen⟩

/-- Claim C10 (confirmed): for an explicit size in {1, 2, 4} and an integer
value that does not fit in that size (negative, or too large), `_send` fails
with the packing error `struct.error` — the packet computation itself errors,
and `_send` on any handler state returns that error, producing no new state:
nothing is written to the transport and nothing is buffered, and the value is
never truncated. -/
theorem send_explicit_size_overflow_raises (v : Int) (s : Nat)
    (hs : s = 1 ∨ s = 2 ∨ s = 4) (hnofit : ¬(0 ≤ v ∧ v < 2 ^ (8 * s))) :
    sendPacket (.int v) (some s) = .error "struct.error: argument out of range" ∧
      ∀ h : Handler,
        h.send (.int v) (some s) = .error "struct.error: argument out of range" := by
  have hpk : sendPacket (.int v) (some s) = .error "struct.error: argument out of range" := by
    rcases hs with rfl | rfl | rfl <;>
      (simp [sendPacket, get_integer_type, packStruct]; norm_num at hnofit; omega)
  exact ⟨hpk, fun h => by simp [Handler.send, hpk]⟩

/-- Witness for C10 at `send(300, size=1)`. -/
theorem send_explicit_size_overflow_raises_witness :
    ((1 : Nat) = 1 ∨ (1 : Nat) = 2 ∨ (1 : Nat) = 4) ∧
      ¬((0 : Int) ≤ 300 ∧ (300 : Int) < 2 ^ (8 * 1)) ∧
      sendPacket (.int 300) (some 1) = .error "struct.error: argument out of range" := by
  refine ⟨by norm_num, by norm_num, (send_explicit_size_overflow_raises 300 1 (by norm_num) (by norm_num)).1⟩

/-- Claim C6 (confirmed): a short read is swallowed locally: `_receive(size)`
returns the sentinel -1 whenever fewer than `size` bytes are available, and
`get_ack` with burst mode off returns FAILED=3 when no byte is available;
both are total functions into plain values (not `Except`), so neither raises
an exception in these cases. -/
theorem short_read_returns_sentinels (h : Handler) (size : Nat) :
    (h.interface.rx.length < size → (h.receive size).1 = -1) ∧
      (h.load_burst = false → h.interface.rx = [] → h.get_ack.1 = 3) := by
  constructor
  · intro hshort
    have hne : ¬(h.interface.rx.take size).length = size := by
      simp [List.length_take]; omega
    simp only [Handler.receive, serialRead]
    rw [if_neg hne]
  · intro hlb hrx
    simp [Handler.get_ack, serialRead, hlb, hrx]

/-- Witness for C6 on an empty input stream. -/
theorem short_read_returns_sentinels_witness :
    (handlerWith []).interface.rx.length < 2 ∧
      ((handlerWith []).receive 2).1 = -1 ∧ (handlerWith []).get_ack.1 = 3 :=
  ⟨by decide, (short_read_returns_sentinels (handlerWith []) 2).1 (by decide), (short_read_returns_sentinels (handlerWith []) 2).2 rfl rfl⟩

/-- Claim C5 (corrected): `get_ack` returns 1 in burst mode and collapses a
read failure (no byte available) to FAILED=3 rather than propagating a
distinct error; but with burst mode off and a response byte `b` present it
returns `b` unchanged, so its result is confined to {SUCCESS=1,
ARGUMENT_ERROR=2, FAILED=3} only when the peer actually sends such a code —
not for every transport response byte, as the counterexample shows. -/
theorem get_ack_returns_raw_byte (h : Handler) :
    (h.load_burst = true → h.get_ack.1 = 1) ∧
      (h.load_burst = false → h.interface.rx = [] → h.get_ack.1 = 3) ∧
      (∀ b rest, h.load_burst = false → h.interface.rx = b :: rest →
        h.get_ack.1 = b) := by
  refine ⟨fun hlb => by simp [Handler.get_ack, hlb], fun hlb hrx => by
    simp [Handler.get_ack, serialRead, hlb, hrx], fun b rest hlb hrx => by
    simp [Handler.get_ack, serialRead, hlb, hrx]⟩

/-- Witness for C5 with response byte 7. -/
theorem get_ack_returns_raw_byte_witness :
    (handlerWith [7]).load_burst = false ∧ (handlerWith [7]).interface.rx = 7 :: [] ∧
      (handlerWith [7]).get_ack.1 = 7 :=
  ⟨rfl, rfl, (get_ack_returns_raw_byte (handlerWith [7])).2.2 7 [] rfl rfl⟩

/-- Counterexample for C5 as stated: response byte 5 makes `get_ack` return 5, which is none of SUCCESS=1, ARGUMENT_ERROR=2, FAILED=3. -/
theorem get_ack_out_of_range_cex :
    (handlerWith [5]).get_ack.1 = 5 ∧
      ¬((handlerWith [5]).get_ack.1 = 1 ∨ (handlerWith [5]).get_ack.1 = 2 ∨
        (handlerWith [5]).get_ack.1 = 3) := by
  refine ⟨by decide, by decide⟩

/-- Claim C2 (corrected): the burst buffer and the pending-acknowledgment
counter are reset to empty/zero exactly when `send_burst` flushes: `_send`
only ever extends the buffer and preserves the counter, `get_ack` preserves
the buffer and only ever grows the counter, `send_burst` resets both and
turns burst mode off, and an external burst-mode assignment changes neither
— so turning burst mode off externally does NOT reset them, and the buffer
can remain non-empty while burst mode is off (see the counterexample). -/
theorem burst_state_reset_only_by_flush (h : Handler) (v : Value) (sz : Option Nat) (b : Bool) :
    (∀ h', h.send v sz = .ok h' →
      (∃ ext, h'.burst_buffer = h.burst_buffer ++ ext) ∧
        h'.input_queue_size = h.input_queue_size) ∧
    (h.get_ack.2.burst_buffer = h.burst_buffer ∧
      h.input_queue_size ≤ h.get_ack.2.input_queue_size) ∧
    (h.send_burst.2.burst_buffer = [] ∧ h.send_burst.2.input_queue_size = 0 ∧
      h.send_burst.2.load_burst = false) ∧
    ((h.setLoadBurst b).burst_buffer = h.burst_buffer ∧
      (h.setLoadBurst b).input_queue_size = h.input_queue_size) := by
  refine ⟨?_, ?_, ?_, ?_⟩
  · intro h' hok
    unfold Handler.send at hok
    cases hp : sendPacket v sz with
    | error e => rw [hp] at hok; cases hok
    | ok pk =>
      rw [hp] at hok
      by_cases hlb : h.load_burst <;> simp [hlb] at hok <;> subst hok <;> simp
  · by_cases hlb : h.load_burst
    · simp [Handler.get_ack, hlb]
    · rcases hrx : h.interface.rx with _ | ⟨b', rest⟩ <;>
        simp [Handler.get_ack, hlb, serialRead, hrx]
  · simp [Handler.send_burst, serialWrite, serialRead]
  · simp [Handler.setLoadBurst]

/-- Witness for C2 on a concrete burst send. -/
theorem burst_state_reset_only_by_flush_witness :
    ((∃ ext, h2c.burst_buffer =
        ((handlerWith []).setLoadBurst true).burst_buffer ++ ext) ∧
      h2c.input_queue_size =
        ((handlerWith []).setLoadBurst true).input_queue_size) ∧
    ((handlerWith []).setLoadBurst true).send (.int 5) none = .ok h2c :=
  ⟨(burst_state_reset_only_by_flush ((handlerWith []).setLoadBurst true) (.int 5) none false).1 h2c rfl, rfl⟩

/-- Counterexample for C2 as stated: after burst mode on, one send, and an external mode-off assignment, the buffer is still non-empty while burst mode is off. -/
theorem burst_state_nonempty_mode_off_cex :
    ((handlerWith []).setLoadBurst true).send (.int 5) none = .ok h2c ∧
      (h2c.setLoadBurst false).load_burst = false ∧
      (h2c.setLoadBurst false).burst_buffer ≠ [] :=
  ⟨rfl, rfl, by decide⟩

/-- Claim C3 (corrected): a successful `connect` stores a version containing
a recognized device marker (hence non-empty), and a failed `connect` clears
the version to empty — but `disconnect` only closes the interface and leaves
the version untouched, so the version is not cleared on disconnect (see the
counterexample). -/
theorem version_lifecycle (env : String → String) (cands : List String)
    (port : Option String) (baudrate : Nat) (timeout : ℚ) (h : Handler) :
    ((Handler.connect env cands port baudrate timeout h).2 = true →
      markerOk (Handler.connect env cands port baudrate timeout h).1.version = true ∧
        (Handler.connect env cands port baudrate timeout h).1.version ≠ "") ∧
    ((Handler.connect env cands port baudrate timeout h).2 = false →
      (Handler.connect env cands port baudrate timeout h).1.version = "") ∧
    h.disconnect.version = h.version := by
  by_cases hv : markerOk (connectProbe env cands port baudrate timeout).2 <;>
    simp [Handler.connect, Handler.disconnect, hv]
  intro he
  rw [he] at hv
  exact absurd hv (by decide)

/-- Witness for C3 on a successful autodetected connect. -/
theorem version_lifecycle_witness :
    (Handler.connect env0 ["COM9"] none 1000000 1 (handlerWith [])).2 = true ∧
      markerOk (Handler.connect env0 ["COM9"] none 1000000 1 (handlerWith [])).1.version = true ∧
      (Handler.connect env0 ["COM9"] none 1000000 1 (handlerWith [])).1.version ≠ "" :=
  ⟨by decide, (version_lifecycle env0 ["COM9"] none 1000000 1 (handlerWith [])).1 (by decide)⟩

/-- Counterexample for C3 as stated: after a successful connect followed by disconnect, the version string still holds the device version instead of being cleared. -/
theorem version_survives_disconnect_cex :
    ((Handler.connect env0 ["COM9"] none 1000000 1 (handlerWith [])).1.disconnect).version
        = "PSLab mock" ∧
      "PSLab mock" ≠ "" :=
  ⟨by decide, by decide⟩

/-- Claim C4 (code bug, evaluated): `reconnect` with all parameters left
unspecified on a previous connection (port COM1, baudrate 115200, timeout 2)
ends up connected through autodetection with the default baudrate 1000000 and
default timeout 1, because the final `self.connect()` call passes no
arguments — the previous settings are computed and then discarded,
contradicting the function's own docstring. -/
theorem reconnect_uses_connect_defaults :
    hPrev.interface.port = some "COM1" ∧ hPrev.interface.baudrate = 115200 ∧
      hPrev.interface.timeout = 2 ∧
      (Handler.reconnect env0 ["COM9"] none none none hPrev).2 = true ∧
      (Handler.reconnect env0 ["COM9"] none none none hPrev).1.interface.port = some "COM9" ∧
      (Handler.reconnect env0 ["COM9"] none none none hPrev).1.interface.baudrate = 1000000 ∧
      (Handler.reconnect env0 ["COM9"] none none none hPrev).1.interface.timeout = 1 := by
  refine ⟨rfl, rfl, rfl, by decide, by decide, by decide, ?_⟩
  decide

/-- The unreached body of `read_bulk_flash`, run with `_send` as the evident
intent of `self.send`, transfers `numbytes + numbytes % 2` bytes — the
rounding of `numbytes` up to the nearest even number — sending that length
as a 2-byte little-endian field, reads exactly that many data bytes (plus
one acknowledgment byte) from the transport, and returns only the first
`numbytes` of the bytes read, discarding the alignment pad. -/
theorem read_bulk_flash_body_rounds_to_even (fT rT : List Nat) (page numbytes : Nat) (h : Handler)
    (hlb : h.load_burst = false) (hp : (page : Int) < 2 ^ 32)
    (hn : numbytes + numbytes % 2 < 2 ^ 16) :
    ∃ ppk, sendPacket (.int (page : Int)) none = .ok ppk ∧
      (2 ∣ (numbytes + numbytes % 2) ∧ numbytes ≤ numbytes + numbytes % 2 ∧
        numbytes + numbytes % 2 ≤ numbytes + 1) ∧
      Handler.read_bulk_flashWith Handler.send fT rT page numbytes h =
        .ok (h.interface.rx.take numbytes,
          { h with interface :=
            { h.interface with
              rx := (h.interface.rx.drop (numbytes + numbytes % 2)).drop 1,
              writes := h.interface.writes ++
                [fT, rT, natLE 2 (numbytes + numbytes % 2), ppk] } }) := by
  obtain ⟨ppk, hppk, -, -⟩ := sendPacket_auto (page : Int) (Int.natCast_nonneg page) hp
  refine ⟨ppk, hppk, ⟨by omega, by omega, by omega⟩, ?_⟩
  have hmin : min numbytes (numbytes + numbytes % 2) = numbytes := by omega
  obtain ⟨bb, lb, iqs, ver, iface⟩ := h
  simp only [Handler.load_burst] at hlb
  subst hlb
  rw [read_bulk_flash_run fT rT page numbytes bb iqs ver iface hn ppk hppk]
  simp [List.take_take, List.drop_drop, hmin]

theorem write_bulk_flash_run (fT wT rT : List Nat) (page : Nat) (data : List Nat)
    (bb : List Nat) (iqs : Nat) (ver : String) (ifc : Serial)
    (hlen : data.length + data.length % 2 < 2 ^ 16)
    (ppk : List Nat) (hppk : sendPacket (.int (page : Int)) none = .ok ppk) :
    Handler.write_bulk_flashWith Handler.send fT wT rT page data
        ⟨bb, false, iqs, ver, ifc⟩ =
      if (ifc.rx.drop 1).take (padEven data).length = padEven data
      then .ok ⟨bb, false, iqs, ver,
        ⟨ifc.port, ifc.baudrate, ifc.timeout, ifc.isOpen,
          ((ifc.rx.drop 1).drop (padEven data).length).drop 1,
          ifc.writes ++ [fT, wT, natLE 2 (padEven data).length, ppk, padEven data,
            fT, rT, natLE 2 (padEven data).length, ppk]⟩⟩
      else .error "Verification by readback failed" := by
  obtain ⟨pt, br, tm, op, rx, ws⟩ := ifc
  have hPlen0 : (padEven data).length = data.length + data.length % 2 := by
    simp [padEven]
  rw [Handler.write_bulk_flashWith]
  generalize hP : padEven data = P
  rw [hP] at hPlen0
  generalize hL : P.length = L
  rw [hL] at hPlen0
  have hL16 : L < 2 ^ 16 := by rw [hPlen0]; exact hlen
  have hnn : L + L % 2 < 2 ^ 16 := by rw [hPlen0]; omega
  have hLL : L + L % 2 = L := by rw [hPlen0]; omega
  rw [send_ok_rec bb iqs ver ⟨pt, br, tm, op, rx, ws⟩ (.bytes fT) none fT rfl, ebind_ok]
  rw [send_ok_rec bb iqs ver (serialWrite ⟨pt, br, tm, op, rx, ws⟩ fT) (.bytes wT) none wT rfl,
    ebind_ok]
  rw [send_ok_rec bb iqs ver (serialWrite (serialWrite ⟨pt, br, tm, op, rx, ws⟩ fT) wT)
    (.int ((L : Nat) : Int)) (some 2) (natLE 2 L) (sendPacket_short L hL16), ebind_ok]
  rw [send_ok_rec bb iqs ver
    (serialWrite (serialWrite (serialWrite ⟨pt, br, tm, op, rx, ws⟩ fT) wT) (natLE 2 L))
    (.int ((page : Nat) : Int)) none ppk hppk, ebind_ok]
  dsimp only
  rw [get_ack_snd_rec bb iqs ver
    (serialWrite
      (serialWrite (serialWrite (serialWrite (serialWrite ⟨pt, br, tm, op, rx, ws⟩ fT) wT)
        (natLE 2 L)) ppk) P)]
  dsimp only [serialWrite]
  rw [read_bulk_flash_run fT rT page L bb iqs ver
    ⟨pt, br, tm, op, List.drop 1 rx,
      ((((ws ++ [fT]) ++ [wT]) ++ [natLE 2 L]) ++ [ppk]) ++ [P]⟩
    hnn ppk hppk, ebind_ok]
  rw [hLL]
  simp [List.take_take, List.drop_drop]

theorem runOps_burst (ops : List BOp) : ∀ h : Handler, h.load_burst = true →
    ∀ h' acks, runOps ops h = .ok (h', acks) →
      h'.load_burst = true ∧ h'.interface = h.interface ∧
        h'.input_queue_size = h.input_queue_size + countAcks ops ∧
        acks = List.replicate (countAcks ops) 1 ∧
        ∃ pay, payloadOf ops = .ok pay ∧
          h'.burst_buffer = h.burst_buffer ++ pay := by
  induction ops with
  | nil =>
    intro h hlb h' acks hrun
    simp [runOps] at hrun
    obtain ⟨rfl, rfl⟩ := hrun
    simp [countAcks, payloadOf, hlb]
  | cons op rest ih =>
    intro h hlb h' acks hrun
    cases op with
    | sendOp v sz =>
      rw [runOps] at hrun
      cases hsend : Handler.send h v sz with
      | error e => simp [hsend] at hrun
      | ok h1 =>
        simp only [hsend] at hrun
        unfold Handler.send at hsend
        cases hpk : sendPacket v sz with
        | error e => simp [hpk] at hsend
        | ok pk =>
          rw [hpk] at hsend
          simp [hlb] at hsend
          subst hsend
          obtain ⟨l1, l2, l3, l4, pay, hpay, hbuf⟩ := ih _ (by simp [hlb]) h' acks hrun
          refine ⟨l1, by simpa using l2, by simpa [countAcks] using l3,
            by simpa [countAcks] using l4, pk ++ pay, ?_, ?_⟩
          · simp [payloadOf, hpk, hpay]
          · rw [hbuf]; simp
    | ackOp =>
      have hga : Handler.get_ack h =
          (1, { h with input_queue_size := h.input_queue_size + 1 }) := by
        simp [Handler.get_ack, hlb]
      rw [runOps, hga] at hrun
      cases hrest : runOps rest { h with input_queue_size := h.input_queue_size + 1 } with
      | error e => simp [hrest] at hrun
      | ok pr =>
        obtain ⟨h'', rs⟩ := pr
        simp only [hrest] at hrun
        have hh : h'' = h' ∧ (1 : Nat) :: rs = acks := by
          cases hrun; exact ⟨rfl, rfl⟩
        obtain ⟨rfl, rfl⟩ := hh
        obtain ⟨l1, l2, l3, l4, pay, hpay, hbuf⟩ := ih _ (by simp [hlb]) h'' rs hrest
        subst l4
        refine ⟨l1, by simpa using l2, ?_, ?_, pay,
          by simpa [payloadOf] using hpay, by simpa using hbuf⟩
        · simp [countAcks] at l3 ⊢
          omega
        · simp [countAcks, List.replicate]

/-- Claim C7 (confirmed): starting in burst mode with empty buffer and zero
counter, a sequence of `_send`/`get_ack` operations performs no transport
I/O, each `get_ack` returns SUCCESS=1, the buffer holds the concatenation of
all packed payloads and the counter the number of deferred acknowledgments;
`send_burst` then performs exactly one write containing that concatenation,
clears the buffer, turns burst mode off, performs exactly one read of
counter-many bytes, resets the counter to zero, and returns the ordered raw
(undecoded) acknowledgment bytes, whose number equals the deferred count. -/
theorem burst_flush_protocol (ops : List BOp) (h h' : Handler) (acks : List Nat)
    (hlb : h.load_burst = true) (hbuf : h.burst_buffer = [])
    (hiq : h.input_queue_size = 0)
    (hrun : runOps ops h = .ok (h', acks))
    (hrx : countAcks ops ≤ h.interface.rx.length) :
    h'.interface = h.interface ∧
    acks = List.replicate (countAcks ops) 1 ∧
    acks.length = countAcks ops ∧
    ∃ pay, payloadOf ops = .ok pay ∧ h'.burst_buffer = pay ∧
      h'.input_queue_size = countAcks ops ∧
      h'.send_burst.1 = h.interface.rx.take (countAcks ops) ∧
      h'.send_burst.1.length = countAcks ops ∧
      h'.send_burst.2.interface.writes = h.interface.writes ++ [pay] ∧
      h'.send_burst.2.burst_buffer = [] ∧
      h'.send_burst.2.load_burst = false ∧
      h'.send_burst.2.input_queue_size = 0 ∧
      h'.send_burst.2.interface.rx = h.interface.rx.drop (countAcks ops) := by
  obtain ⟨g1, g2, g3, g4, pay, hpay, gbuf⟩ := runOps_burst ops h hlb h' acks hrun
  refine ⟨g2, g4, by simp [g4], pay, hpay, by simp [gbuf, hbuf], by omega, ?_, ?_, ?_, ?_, ?_, ?_, ?_⟩ <;>
    (simp [Handler.send_burst, serialWrite, serialRead, g2, g3, hiq, gbuf, hbuf,
      List.length_take]; try omega)

/-- The unreached body of `write_bulk_flash`, run with `_send` as the evident
intent of `self.send`, succeeds if and only if the read-back equals the
PADDED data (the original zero-padded to even length — the value the Python
name `data` holds at the comparison), with exactly one write sequence and
one read-back and no retry; note the comparison is not against the unpadded
original. -/
theorem write_bulk_flash_body_verifies_padded (fT wT rT : List Nat) (page : Nat) (data : List Nat) (h : Handler)
    (hlb : h.load_burst = false) (hp : (page : Int) < 2 ^ 32)
    (hlen : data.length + data.length % 2 < 2 ^ 16) :
    (exceptOk (Handler.write_bulk_flashWith Handler.send fT wT rT page data h) = true ↔
      (h.interface.rx.drop 1).take (padEven data).length = padEven data) ∧
    ∀ h', Handler.write_bulk_flashWith Handler.send fT wT rT page data h = .ok h' →
      ∃ ppk, sendPacket (.int (page : Int)) none = .ok ppk ∧
        h'.interface.writes = h.interface.writes ++
          [fT, wT, natLE 2 (padEven data).length, ppk, padEven data,
            fT, rT, natLE 2 (padEven data).length, ppk] := by
  obtain ⟨ppk, hppk, -, -⟩ := sendPacket_auto (page : Int) (Int.natCast_nonneg page) hp
  obtain ⟨bb, lb, iqs, ver, iface⟩ := h
  simp only [Handler.load_burst] at hlb
  subst hlb
  rw [write_bulk_flash_run fT wT rT page data bb iqs ver iface hlen ppk hppk]
  by_cases hR : (iface.rx.drop 1).take (padEven data).length = padEven data
  · constructor
    · rw [if_pos hR]
      simp [exceptOk]
      rwa [List.drop_one] at hR
    · intro h' hok
      rw [if_pos hR] at hok
      refine ⟨ppk, hppk, ?_⟩
      have hh : _ = h' := Except.ok.inj hok
      rw [← hh]
  · constructor
    · rw [if_neg hR]
      simp [exceptOk]
      rwa [List.drop_one] at hR
    · intro h' hok
      rw [if_neg hR] at hok
      cases hok

/-- Claim C1 (corrected): `write_bulk_flash` never reaches its write, its
acknowledgment read, its read-back or its comparison: its first command
send `self.send(CP.FLASH)` looks up the attribute `send`, which `Handler`
does not define (it defines `_send` and the partials `send_byte` and
`send_int`), so every call raises `AttributeError` before any transport
I/O; in particular the verification error is never raised and there is
nothing to retry. -/
theorem write_bulk_flash_attribute_error :
    (∀ (fT wT rT : List Nat) (page : Nat) (data : List Nat) (h : Handler),
      Handler.write_bulk_flash fT wT rT page data h = .error attributeError) ∧
    attributeError ≠ "Verification by readback failed" :=
  ⟨fun _ _ _ _ _ _ => rfl, by decide⟩

/-- Counterexample for C1 as stated: at page 0 and data [65], with the peer
ready to acknowledge and echoing exactly the written (padded) bytes, the
claim predicts a read-back comparison against the unpadded original
deciding between success and `VerificationError`; the call instead raises
`AttributeError` — not the verification failure — without writing or
reading anything. -/
theorem write_bulk_flash_attribute_error_cex :
    Handler.write_bulk_flash [7] [8] [6] 0 [65] (handlerWith [1, 65, 0, 1]) =
      .error attributeError ∧
    attributeError ≠ "Verification by readback failed" :=
  ⟨rfl, by decide⟩

/-- Witness for C7 on the spec's three-send, three-ack burst. -/
theorem burst_flush_protocol_witness :
    (hB.load_burst = true ∧ hB.burst_buffer = [] ∧ hB.input_queue_size = 0 ∧
      runOps opsB hB = .ok (hBfin, [1, 1, 1]) ∧
      countAcks opsB ≤ hB.interface.rx.length) ∧
    (payloadOf opsB = .ok [5, 44, 1, 9] ∧ hBfin.burst_buffer = [5, 44, 1, 9] ∧
      hBfin.send_burst.1 = [1, 1, 2] ∧
      hBfin.send_burst.2.interface.writes = hB.interface.writes ++ [[5, 44, 1, 9]] ∧
      hBfin.send_burst.2.load_burst = false) := by
  refine ⟨⟨rfl, rfl, rfl, rfl, by decide⟩, ?_⟩
  obtain ⟨-, -, -, pay, hpay, hbuf, -, hres, -, hwr, -, hlbf, -, -⟩ :=
    burst_flush_protocol opsB hB hBfin [1, 1, 1] rfl rfl rfl rfl (by decide)
  have h0 : payloadOf opsB = .ok [5, 44, 1, 9] := rfl
  rw [h0] at hpay
  have hpayv : pay = [5, 44, 1, 9] := (Except.ok.inj hpay).symm
  subst hpayv
  exact ⟨h0, hbuf, by rw [hres]; rfl, hwr, hlbf⟩

/-- Claim C9 (code bug, evaluated): every call of `read_bulk_flash` raises
`AttributeError` at its first statement — the attribute `send` does not
exist on `Handler`, which defines only `_send` and the partials — so no
transfer length is ever requested and no byte is read; the protocol the
claim (matching the spec and the method's own docstring) describes is that
of the unreached body: at the spec's example, run with `_send` as evidently
intended, `read_bulk_flash(0, 5)` sends the rounded length 6 = 5 + 5 % 2 as
the 2-byte field [6, 0], reads 6 data bytes plus the acknowledgment, and
returns only the first 5 bytes read. -/
theorem read_bulk_flash_attribute_error :
    (∀ (fT rT : List Nat) (page numbytes : Nat) (h : Handler),
      Handler.read_bulk_flash fT rT page numbytes h = .error attributeError) ∧
    (Handler.read_bulk_flashWith Handler.send [7] [6] 0 5
        (handlerWith [10, 20, 30, 40, 50, 60, 1])).toOption.map Prod.fst =
      some [10, 20, 30, 40, 50] ∧
    (Handler.read_bulk_flashWith Handler.send [7] [6] 0 5
        (handlerWith [10, 20, 30, 40, 50, 60, 1])).toOption.map
        (fun r => r.2.interface.writes) =
      some [[7], [6], [6, 0], [0]] :=
  ⟨fun _ _ _ _ _ => rfl, rfl, rfl⟩
